import Mathlib

/-!
Verification development for titletool (titletool.cpp / texttool.cpp):
a batch utility that renders a title and subtitle over a flat or
gradient background and writes one image file.

Shallow embedding conventions:
* `float` scalars are idealized as exact rationals `ℚ`; the literal
  `std::numeric_limits<float>::epsilon()` is the exact rational `2⁻²³`.
* A float value that may be NaN (the result of the gradient's `0/0`
  blend division) is modelled as `Option ℚ`, `none` standing for NaN;
  NaN propagates through `Option.map`.
* The canvas (`ImageBuf` of 4 float channels) is a total function
  `ℤ → ℤ → Pixel`; `setpixel` is pointwise functional update.
* C++ `int` arithmetic is `ℤ`; C++ `/` and `%` on `int` truncate
  toward zero, embedded as `Int.tdiv` / `Int.tmod`.
-/

/-- RGB color triple (three float channels), as in `Imath::Vec3<float>`. -/
structure Color3 where
  r : ℚ
  g : ℚ
  b : ℚ
deriving DecidableEq, Repr

/-- HSV triple passed to `rgb_from_hsv` (hue degrees, saturation, value). -/
structure HSV where
  h : ℚ
  s : ℚ
  v : ℚ
deriving DecidableEq, Repr

/-- One canvas pixel: RGB channels that may be NaN (`none`), and alpha.
The alpha written by this program is always a finite literal. -/
structure Pixel where
  r : Option ℚ
  g : Option ℚ
  b : Option ℚ
  a : ℚ
deriving DecidableEq, Repr

/-- The canvas: pixel lookup by (x, y). -/
def Image := ℤ → ℤ → Pixel

/-- `OIIO::ROI`: the rectangle `[xbegin,xend) × [ybegin,yend)`. -/
structure ROI where
  xbegin : ℤ
  xend : ℤ
  ybegin : ℤ
  yend : ℤ
deriving DecidableEq, Repr

/-- `ROI::height() = yend - ybegin`. -/
def ROI.height (roi : ROI) : ℤ := roi.yend - roi.ybegin

/-- `ROI::width() = xend - xbegin`. -/
def ROI.width (roi : ROI) : ℤ := roi.xend - roi.xbegin

/-- `(x, y)` lies inside the rectangle of `roi`. -/
def ROI.mem (roi : ROI) (x y : ℤ) : Prop :=
  roi.xbegin ≤ x ∧ x < roi.xend ∧ roi.ybegin ≤ y ∧ y < roi.yend

instance (roi : ROI) (x y : ℤ) : Decidable (roi.mem x y) :=
  inferInstanceAs
    (Decidable (roi.xbegin ≤ x ∧ x < roi.xend ∧ roi.ybegin ≤ y ∧ y < roi.yend))

/-- `ImageBuf::setpixel(x, y, p)`: functional pointwise update. -/
def setpixel (img : Image) (x y : ℤ) (p : Pixel) : Image :=
  fun x' y' => if x' = x ∧ y' = y then p else img x' y'

/-- The list `[a, a+1, …, a+n-1]`: the iteration space of a C++
`for (int i = a; i < a+n; ++i)` loop. -/
def intRange (a : ℤ) : ℕ → List ℤ
  | 0 => []
  | n + 1 => a :: intRange (a + 1) n

/-- Float division as used on blend factors: `none` (NaN) when the
denominator is zero (in `draw_gradient` the numerator is zero whenever
the denominator is, so this is exactly IEEE `0/0 = NaN`). -/
def fdiv (a b : ℚ) : Option ℚ :=
  if b = 0 then none else some (a / b)

/-- The blend factor of row `y`:
`static_cast<float>(y - roi.ybegin) / (roi.height() - 1)`. -/
def blendOf (roi : ROI) (y : ℤ) : Option ℚ :=
  fdiv ((y : ℚ) - (roi.ybegin : ℚ)) ((roi.height : ℚ) - 1)

/-- One channel of `(1 - blend) * start + blend * end`; NaN propagates. -/
def lerpCh (blend : Option ℚ) (s e : ℚ) : Option ℚ :=
  blend.map (fun t => (1 - t) * s + t * e)

/-- The pixel `{r, g, b, 1.0f}` written across row `y` by `draw_gradient`. -/
def gradPixel (roi : ROI) (sc ec : Color3) (y : ℤ) : Pixel :=
  let blend := blendOf roi y
  ⟨lerpCh blend sc.r ec.r, lerpCh blend sc.g ec.g, lerpCh blend sc.b ec.b, 1⟩

/-- `draw_gradient(imagebuf, roi, startcolor, endcolor)`
(titletool.cpp, lines 182–192): for each row `y` in `[ybegin, yend)`
compute the blend and interpolated color, then `setpixel` across every
column `x` in `[xbegin, xend)` with alpha `1.0f`. -/
def draw_gradient (img : Image) (roi : ROI) (sc ec : Color3) : Image :=
  (intRange roi.ybegin (roi.yend - roi.ybegin).toNat).foldl
    (fun im y =>
      (intRange roi.xbegin (roi.xend - roi.xbegin).toNat).foldl
        (fun im2 x => setpixel im2 x y (gradPixel roi sc ec y)) im)
    img

/-- `std::numeric_limits<float>::epsilon() = 2⁻²³ = 1/8388608`. -/
def feps : ℚ := 1 / 8388608

/-- The sector `switch (hi)` of `rgb_from_hsv`; `r = g = b = 0` are the
initializers kept when no case matches. -/
def hsvSector (hi : ℤ) (v p q t : ℚ) : Color3 :=
  match hi with
  | 0 => ⟨v, t, p⟩
  | 1 => ⟨q, v, p⟩
  | 2 => ⟨p, v, t⟩
  | 3 => ⟨p, q, v⟩
  | 4 => ⟨t, p, v⟩
  | 5 => ⟨v, p, q⟩
  | _ => ⟨0, 0, 0⟩

/-- `hi = static_cast<int>(std::floor(hue / 60.0f)) % 6`, with C++
truncating `%` (`Int.tmod`). -/
def hsvHi (hue : ℚ) : ℤ := Int.tmod ⌊hue / 60⌋ 6

/-- `f = (hue / 60.0f) - static_cast<float>(hi)`. -/
def hsvF (hue : ℚ) : ℚ := hue / 60 - ((hsvHi hue : ℤ) : ℚ)

/-- `p = value * (1.0f - saturation)`. -/
def hsvP (s v : ℚ) : ℚ := v * (1 - s)

/-- `q = value * (1.0f - f * saturation)`. -/
def hsvQ (hue s v : ℚ) : ℚ := v * (1 - hsvF hue * s)

/-- `t = value * (1.0f - (1.0f - f) * saturation)`. -/
def hsvT (hue s v : ℚ) : ℚ := v * (1 - (1 - hsvF hue) * s)

/-- `rgb_from_hsv` (titletool.cpp, lines 145–180).  `if (hue >= 360)`
sets hue to `0`; value below epsilon gives black; saturation below
epsilon gives gray; otherwise the six-sector table indexed by `hsvHi`
applied to `value` and the intermediates `p`, `q`, `t`. -/
def rgb_from_hsv (hsv : HSV) : Color3 :=
  let hue : ℚ := if hsv.h ≥ 360 then 0 else hsv.h
  let saturation := hsv.s
  let value := hsv.v
  if value < feps then ⟨0, 0, 0⟩
  else if saturation < feps then ⟨value, value, value⟩
  else
    hsvSector (hsvHi hue) value (hsvP saturation value)
      (hsvQ hue saturation value) (hsvT hue saturation value)

/-- The HSV→RGB reference definition as the spec words it (§4.2): same
normalization and epsilon branches, sector `hi = floor(hue/60) mod 6`
taken as the mathematical modulus (`Int.emod`), same six-sector table. -/
def hsv_reference (hsv : HSV) : Color3 :=
  let hue : ℚ := if hsv.h ≥ 360 then 0 else hsv.h
  let saturation := hsv.s
  let value := hsv.v
  if value < feps then ⟨0, 0, 0⟩
  else if saturation < feps then ⟨value, value, value⟩
  else
    let hi : ℤ := ⌊hue / 60⌋ % 6
    let f : ℚ := hue / 60 - (hi : ℚ)
    let p := value * (1 - saturation)
    let q := value * (1 - f * saturation)
    let t := value * (1 - (1 - f) * saturation)
    hsvSector hi value p q t

/-! ## The hue table, background selection, layout and output stages -/

/-- Lexicographic comparison of char lists: `std::string operator<`
(byte-wise comparison; the table keys are ASCII). -/
def charsLt : List Char → List Char → Bool
  | [], [] => false
  | [], _ :: _ => true
  | _ :: _, [] => false
  | c :: as, d :: bs =>
    if c.toNat < d.toNat then true
    else if d.toNat < c.toNat then false
    else charsLt as bs

/-- `std::string` strict order on Lean strings. -/
def strLt (a b : String) : Bool := charsLt a.data b.data

/-- Ordered insertion into an association list sorted by key: the model
of `std::map<std::string, float>` insertion (`hues["red"] = 360.0f`…).
`std::map` keeps keys in ascending lexicographic order. -/
def huesInsert : List (String × ℚ) → String → ℚ → List (String × ℚ)
  | [], k, v => [(k, v)]
  | (k', v') :: rest, k, v =>
    if strLt k k' then (k, v) :: (k', v') :: rest
    else if k == k' then (k, v) :: rest
    else (k', v') :: huesInsert rest k v

/-- The ten assignments building the map, in source order
(titletool.cpp, lines 292–301). -/
def huesEntries : List (String × ℚ) :=
  [("red", 360), ("orange", 30), ("yellow", 60), ("green", 120),
   ("cyan", 180), ("azure", 210), ("blue", 240), ("violet", 270),
   ("magenta", 300), ("rose", 330)]

/-- The `hues` map after the ten insertions. -/
def hues : List (String × ℚ) :=
  huesEntries.foldl (fun m kv => huesInsert m kv.1 kv.2) []

/-- `hues.find(tool.gradient)`: exact, case-sensitive key match. -/
def huesFind (name : String) : Option ℚ :=
  (hues.find? (fun kv => kv.1 == name)).map (fun kv => kv.2)

/-- The `options` string built on a lookup miss by iterating the map
(key order) and joining with `", "` (titletool.cpp, lines 316–322). -/
def hueOptions : String :=
  String.intercalate ", " (hues.map (fun kv => kv.1))

/-- The diagnostics printed by the gradient branch: empty on a hit,
two warnings on a miss, nothing when no gradient was supplied. -/
def gradientWarnings (gradient : String) : List String :=
  if 0 < gradient.length then
    match huesFind gradient with
    | some _ => []
    | none =>
        ["warning: could not find hue for gradient: " ++ gradient,
         "warning: available options are: " ++ hueOptions]
  else []

/-- The names passed to the map lookup during the run: `hues.find` is
reached only inside the `tool.gradient.size() > 0` branch, so the empty
name is never looked up. -/
def gradientLookups (gradient : String) : List String :=
  if 0 < gradient.length then [gradient] else []

/-- `ImageBufAlgo::fill(imagebuf, {r, g, b, a}, roi)`: constant fill of
the region. -/
def fill (img : Image) (c : Color3) (alpha : ℚ) (roi : ROI) : Image :=
  fun x y => if roi.mem x y then ⟨some c.r, some c.g, some c.b, alpha⟩ else img x y

/-- The background stage of `main` (titletool.cpp, lines 288–333): when
a gradient name is supplied and found, draw the gradient from
`rgb_from_hsv(hue, 1.0, 0.5)` to `rgb_from_hsv(hue, 0.5, 0.8)`;
otherwise (`!found`) flat-fill the region with the background color and
alpha `1.0f`. -/
def renderBackground (gradient : String) (background : Color3) (roi : ROI)
    (img : Image) : Image :=
  if 0 < gradient.length then
    match huesFind gradient with
    | some hue =>
        draw_gradient img roi (rgb_from_hsv ⟨hue, 1, 1/2⟩)
          (rgb_from_hsv ⟨hue, 1/2, 4/5⟩)
    | none => fill img background 1 roi
  else fill img background 1 roi

/-- The measurement step of `main` (titletool.cpp, lines 338–339): both
`text_size` calls pass `tool.title`; the second call uses the subtitle
font size but the TITLE string. The external measurement interface is a
parameter `text_size : string → fontsize → height`. -/
def measuredHeights (text_size : String → ℤ → ℤ) (title subtitle : String)
    (titlesize subtitlesize : ℤ) : ℤ × ℤ :=
  (text_size title titlesize, text_size title subtitlesize)

/-- The layout computation (titletool.cpp, lines 340–342):
`textheight = ht + spacing + hs`, `titley = center - textheight / 2`
with C++ `int` division (truncation toward zero, `Int.tdiv`),
`subtitley = titley + ht + spacing`. -/
def layout (ht hs spacing center : ℤ) : ℤ × ℤ :=
  let textheight := ht + spacing + hs
  let titley := center - Int.tdiv textheight 2
  (titley, titley + ht + spacing)

/-- The tail of `main` (titletool.cpp, lines 389–392): the process exit
status and the diagnostics of the write step. On a failed
`imagebuf.write` the error is printed, but the function still ends with
`return 0`. -/
def writeOutcome (writeOk : Bool) (writerMsg : String) : ℤ × List String :=
  if writeOk then ((0 : ℤ), ([] : List String))
  else ((0 : ℤ), ["error: could not write output file" ++ writerMsg])

/-- The fresh float `ImageBuf` of `ImageSpec(w, h, 4, TypeDesc::FLOAT)`:
zero-initialized pixels. -/
def zeroImage : Image := fun _ _ => ⟨some 0, some 0, some 0, 0⟩

/-- The run configuration (the fields of `struct TitleTool` the pipeline
reads). -/
structure Config where
  title : String
  subtitle : String
  gradient : String
  background : Color3
  color : Color3
  sizex : ℤ
  sizey : ℤ
deriving DecidableEq

/-- The composition pipeline of `main` (titletool.cpp, lines 271–387):
derive sizes from the canvas height (`0.2`, `0.1`, `0.08` idealized as
exact ratios, the `int` cast truncating), build the background, measure,
lay out, and draw the two text blocks through the external
`render_text` interface.  Returns the final canvas and the two
computed y anchors. -/
def runPipeline (cfg : Config) (text_size : String → ℤ → ℤ)
    (render_text : Image → ℤ → ℤ → String → ℤ → Color3 → Image) :
    Image × ℤ × ℤ :=
  let roi : ROI := ⟨0, cfg.sizex, 0, cfg.sizey⟩
  let height := roi.height
  let titlesize := Int.tdiv height 5
  let subtitlesize := Int.tdiv height 10
  let center := roi.ybegin + Int.tdiv height 2
  let spacing := Int.tdiv (height * 8) 100
  let bg := renderBackground cfg.gradient cfg.background roi zeroImage
  let hts := measuredHeights text_size cfg.title cfg.subtitle titlesize subtitlesize
  let ys := layout hts.1 hts.2 spacing center
  let img1 := render_text bg (roi.xbegin + Int.tdiv roi.width 2) ys.1
      cfg.title titlesize cfg.color
  let img2 := render_text img1 (roi.xbegin + Int.tdiv roi.width 2) ys.2
      cfg.subtitle subtitlesize cfg.color
  (img2, ys)

/-! ## Characterization of `draw_gradient` -/

/-- Membership in `intRange`. -/
theorem mem_intRange (a x : ℤ) (n : ℕ) :
    x ∈ intRange a n ↔ a ≤ x ∧ x < a + n := by
  induction n generalizing a with
  | zero => simp [intRange]
  | succ n ih => simp [intRange, ih (a + 1)]; omega

/-- Folding `setpixel` along one row only changes that row's pixels in
the written column range. -/
theorem row_foldl_apply (p : Pixel) (y : ℤ) (n : ℕ) :
    ∀ (a : ℤ) (im : Image) (x' y' : ℤ),
      ((intRange a n).foldl (fun im2 x => setpixel im2 x y p) im) x' y'
        = if a ≤ x' ∧ x' < a + n ∧ y' = y then p else im x' y' := by
  induction n with
  | zero =>
    intro a im x' y'
    simp only [intRange, List.foldl_nil]
    rw [if_neg]
    rintro ⟨h1, h2, h3⟩
    omega
  | succ n ih =>
    intro a im x' y'
    simp only [intRange, List.foldl_cons]
    rw [ih (a + 1)]
    by_cases h1 : a + 1 ≤ x' ∧ x' < a + 1 + n ∧ y' = y
    · obtain ⟨c1, c2, c3⟩ := h1
      rw [if_pos ⟨c1, c2, c3⟩, if_pos ⟨by omega, by omega, c3⟩]
    · rw [if_neg h1]
      show setpixel im a y p x' y' = _
      unfold setpixel
      by_cases h2 : x' = a ∧ y' = y
      · obtain ⟨c1, c2⟩ := h2
        rw [if_pos ⟨c1, c2⟩, if_pos ⟨by omega, by omega, c2⟩]
      · rw [if_neg h2, if_neg]
        rintro ⟨g1, g2, g3⟩
        rcases eq_or_lt_of_le g1 with heq | hlt
        · exact h2 ⟨heq.symm, g3⟩
        · exact h1 ⟨by omega, by omega, g3⟩

/-- Folding the per-row writes over a range of rows: the resulting pixel
is the row's gradient pixel inside the written rectangle and the old
pixel elsewhere. -/
theorem grad_foldl_apply (roi : ROI) (sc ec : Color3) (nx : ℕ) (m : ℕ) :
    ∀ (b : ℤ) (im : Image) (x' y' : ℤ),
      ((intRange b m).foldl
        (fun im y =>
          (intRange roi.xbegin nx).foldl
            (fun im2 x => setpixel im2 x y (gradPixel roi sc ec y)) im) im) x' y'
        = if roi.xbegin ≤ x' ∧ x' < roi.xbegin + nx ∧ b ≤ y' ∧ y' < b + m
          then gradPixel roi sc ec y' else im x' y' := by
  induction m with
  | zero =>
    intro b im x' y'
    simp only [intRange, List.foldl_nil]
    rw [if_neg]
    rintro ⟨h1, h2, h3, h4⟩
    omega
  | succ m ih =>
    intro b im x' y'
    simp only [intRange, List.foldl_cons]
    rw [ih (b + 1), row_foldl_apply]
    by_cases h1 : roi.xbegin ≤ x' ∧ x' < roi.xbegin + nx ∧ b + 1 ≤ y' ∧ y' < b + 1 + m
    · obtain ⟨c1, c2, c3, c4⟩ := h1
      rw [if_pos ⟨c1, c2, c3, c4⟩, if_pos ⟨c1, c2, by omega, by omega⟩]
    · rw [if_neg h1]
      by_cases h2 : roi.xbegin ≤ x' ∧ x' < roi.xbegin + nx ∧ y' = b
      · obtain ⟨c1, c2, c3⟩ := h2
        subst c3
        rw [if_pos ⟨c1, c2, rfl⟩, if_pos ⟨c1, c2, by omega, by omega⟩]
      · rw [if_neg h2, if_neg]
        rintro ⟨g1, g2, g3, g4⟩
        by_cases hyb : y' = b
        · exact h2 ⟨g1, g2, hyb⟩
        · exact h1 ⟨g1, g2, by omega, by omega⟩

/-- Pointwise description of `draw_gradient`: inside the region the
pixel is the row's gradient pixel, outside it is untouched. -/
theorem draw_gradient_apply (img : Image) (roi : ROI) (sc ec : Color3) (x y : ℤ) :
    draw_gradient img roi sc ec x y
      = if roi.mem x y then gradPixel roi sc ec y else img x y := by
  unfold draw_gradient
  rw [grad_foldl_apply]
  by_cases hm : roi.mem x y
  · obtain ⟨c1, c2, c3, c4⟩ := hm
    rw [if_pos ⟨c1, by omega, c3, by omega⟩, if_pos ⟨c1, c2, c3, c4⟩]
  · rw [if_neg, if_neg hm]
    rintro ⟨g1, g2, g3, g4⟩
    exact hm ⟨g1, by omega, g3, by omega⟩

/-! ## Shared evaluation facts about the hue table -/

/-- The keys of the built map, in `std::map` iteration order. -/
theorem hues_keys_eval :
    hues.map (fun kv => kv.1)
      = ["azure", "blue", "cyan", "green", "magenta", "orange", "red",
         "rose", "violet", "yellow"] := by decide

/-- The joined diagnostic string enumerates all ten valid names. -/
theorem hueOptions_eval :
    hueOptions
      = "azure, blue, cyan, green, magenta, orange, red, rose, violet, yellow" := by
  decide

/-- A successful lookup means the name is one of the ten table keys. -/
theorem huesFind_mem_keys (name : String) (v : ℚ) (h : huesFind name = some v) :
    name ∈ ["azure", "blue", "cyan", "green", "magenta", "orange", "red",
            "rose", "violet", "yellow"] := by
  unfold huesFind at h
  cases hfind : hues.find? (fun kv => kv.1 == name) with
  | none => rw [hfind] at h; simp at h
  | some kv =>
    have hmem := List.mem_of_find?_eq_some hfind
    have hp := List.find?_some hfind
    have hk : kv.1 = name := by simpa using hp
    rw [← hues_keys_eval, ← hk]
    exact List.mem_map_of_mem (fun kv => kv.1) hmem

/-- Every table key is a non-empty string. -/
theorem table_key_length_pos (name : String)
    (h : name ∈ ["azure", "blue", "cyan", "green", "magenta", "orange", "red",
                 "rose", "violet", "yellow"]) : 0 < name.length := by
  simp only [List.mem_cons, List.not_mem_nil, or_false] at h
  rcases h with rfl | rfl | rfl | rfl | rfl | rfl | rfl | rfl | rfl | rfl <;> decide

/-! ## Claim theorems -/

/-- Claim C1: for all nonnegative measured block heights `ht`, `hs` and
spacing, and every `centerY`, the layout computes
`titleY = centerY - (ht + spacing + hs)/2` with flooring integer
division and `subtitleY = titleY + ht + spacing`; in particular at
`ht = 100`, `hs = 50`, `spacing = 20`, `centerY = 500` it yields
`titleY = 415` and `subtitleY = 535`. -/
theorem layout_floor_centering (ht hs spacing center : ℤ)
    (hht : 0 ≤ ht) (hhs : 0 ≤ hs) (hsp : 0 ≤ spacing) :
    (layout ht hs spacing center).1 = center - Int.fdiv (ht + spacing + hs) 2 ∧
    (layout ht hs spacing center).2 = (layout ht hs spacing center).1 + ht + spacing ∧
    layout 100 50 20 500 = (415, 535) := by
  refine ⟨?_, rfl, by decide⟩
  show center - Int.tdiv (ht + spacing + hs) 2
      = center - Int.fdiv (ht + spacing + hs) 2
  rw [Int.tdiv_eq_ediv (by omega) (by omega), Int.fdiv_eq_ediv _ (by omega)]

/-- Witness for C1 at `ht = 100`, `hs = 50`, `spacing = 20`,
`centerY = 500`. -/
theorem layout_floor_centering_witness :
    ((0:ℤ) ≤ 100 ∧ (0:ℤ) ≤ 50 ∧ (0:ℤ) ≤ 20) ∧
    ((layout 100 50 20 500).1 = 500 - Int.fdiv (100 + 20 + 50) 2 ∧
     (layout 100 50 20 500).2 = (layout 100 50 20 500).1 + 100 + 20 ∧
     layout 100 50 20 500 = (415, 535)) :=
  ⟨⟨by decide, by decide, by decide⟩,
   layout_floor_centering 100 50 20 500 (by decide) (by decide) (by decide)⟩

/-- Claim C3 (code bug): the code measures BOTH blocks from the title
string (titletool.cpp line 339 passes `tool.title` to the subtitle
`text_size` call). Evaluated at measurement `height = length × size`,
title `"ab"`, subtitle `"c"`, title size 10, subtitle size 5: the code
computes subtitle height 10 (from `"ab"`), while the subtitle string's
own measurement is 5. -/
theorem measuredHeights_subtitle_uses_title :
    measuredHeights (fun s size => (s.length : ℤ) * size) "ab" "c" 10 5 = (20, 10) ∧
    (fun (s : String) (size : ℤ) => (s.length : ℤ) * size) "c" 5 = 5 ∧
    (10 : ℤ) ≠ 5 := by
  refine ⟨by decide, by decide, by decide⟩

/-- Claim C4 (code bug): after a failed `imagebuf.write` the program
prints the writer's error message, but `main` still ends with
`return 0`, i.e. the process exit status is 0 (success) rather than a
failure status. -/
theorem writeOutcome_failure_returns_zero (msg : String) :
    (writeOutcome false msg).1 = 0 ∧
    (writeOutcome false msg).2 = ["error: could not write output file" ++ msg] ∧
    writeOutcome true msg = (0, []) :=
  ⟨rfl, rfl, rfl⟩

/-- A sample configuration (the README's example invocation). -/
def sampleConfig : Config :=
  ⟨"Hello, world!", "An image about Hello, world!", "blue",
   ⟨0, 0, 0⟩, ⟨1, 1, 1⟩, 2350, 1000⟩

/-- A sample external text-measurement function. -/
def sampleTextSize : String → ℤ → ℤ := fun s size => (s.length : ℤ) * size

/-- A sample external text-drawing function. -/
def sampleRenderText : Image → ℤ → ℤ → String → ℤ → Color3 → Image :=
  fun img _ _ _ _ _ => img

/-- Claim C9: the pipeline is a pure function of the configuration and
of the external measurement/drawing interfaces: two runs on identical
inputs produce identical pixel data and identical layout anchors. -/
theorem runPipeline_deterministic (cfg cfg' : Config)
    (text_size text_size' : String → ℤ → ℤ)
    (render_text render_text' : Image → ℤ → ℤ → String → ℤ → Color3 → Image)
    (h1 : cfg = cfg') (h2 : text_size = text_size')
    (h3 : render_text = render_text') :
    runPipeline cfg text_size render_text
      = runPipeline cfg' text_size' render_text' := by
  subst h1; subst h2; subst h3; rfl

/-- Witness for C9: two runs on the sample configuration coincide. -/
theorem runPipeline_deterministic_witness :
    (sampleConfig = sampleConfig ∧ sampleTextSize = sampleTextSize ∧
     sampleRenderText = sampleRenderText) ∧
    runPipeline sampleConfig sampleTextSize sampleRenderText
      = runPipeline sampleConfig sampleTextSize sampleRenderText :=
  ⟨⟨rfl, rfl, rfl⟩,
   runPipeline_deterministic sampleConfig sampleConfig sampleTextSize
     sampleTextSize sampleRenderText sampleRenderText rfl rfl rfl⟩

/-- Evaluation of the row pixel when the blend denominator is nonzero. -/
theorem gradPixel_eval (roi : ROI) (sc ec : Color3) (y : ℤ)
    (hden : ((roi.height : ℤ) : ℚ) - 1 ≠ 0) :
    gradPixel roi sc ec y =
      ⟨some ((1 - ((y : ℚ) - (roi.ybegin : ℚ)) / (((roi.height : ℤ) : ℚ) - 1)) * sc.r
          + ((y : ℚ) - (roi.ybegin : ℚ)) / (((roi.height : ℤ) : ℚ) - 1) * ec.r),
       some ((1 - ((y : ℚ) - (roi.ybegin : ℚ)) / (((roi.height : ℤ) : ℚ) - 1)) * sc.g
          + ((y : ℚ) - (roi.ybegin : ℚ)) / (((roi.height : ℤ) : ℚ) - 1) * ec.g),
       some ((1 - ((y : ℚ) - (roi.ybegin : ℚ)) / (((roi.height : ℤ) : ℚ) - 1)) * sc.b
          + ((y : ℚ) - (roi.ybegin : ℚ)) / (((roi.height : ℤ) : ℚ) - 1) * ec.b),
       1⟩ := by
  unfold gradPixel blendOf fdiv
  rw [if_neg hden]
  rfl

/-- Claim C5, counterexample: on a height-1 region the single row does
NOT receive the start color — the blend division `0/0` is performed and
the written RGB channels are NaN (`none`), not `startColor`. -/
theorem draw_gradient_height1_counterexample :
    draw_gradient zeroImage ⟨0, 1, 0, 1⟩ ⟨1, 0, 0⟩ ⟨0, 1, 0⟩ 0 0
      ≠ ⟨some 1, some 0, some 0, 1⟩ := by
  rw [draw_gradient_apply, if_pos (by decide : ROI.mem ⟨0, 1, 0, 1⟩ 0 0)]
  norm_num [gradPixel, blendOf, fdiv, ROI.height, lerpCh]
  intro h
  simp at h

/-- Claim C5, amended: for a region of height 1 the code performs the
degenerate division `0/0` (an IEEE-float NaN) instead of treating the
blend as 0; no crash occurs, but every pixel of the single row gets NaN
RGB channels (with alpha still 1), not the start color. -/
theorem draw_gradient_height1_nan (img : Image) (roi : ROI) (sc ec : Color3)
    (x y : ℤ) (h1 : roi.height = 1) (hmem : roi.mem x y) :
    draw_gradient img roi sc ec x y = ⟨none, none, none, 1⟩ := by
  rw [draw_gradient_apply, if_pos hmem]
  unfold gradPixel blendOf fdiv
  rw [h1]
  norm_num [lerpCh]

/-- Witness for the amended C5 at a concrete height-1 region. -/
theorem draw_gradient_height1_nan_witness :
    ((ROI.mk 0 2 0 1).height = 1 ∧ ROI.mem ⟨0, 2, 0, 1⟩ 1 0) ∧
    draw_gradient zeroImage ⟨0, 2, 0, 1⟩ ⟨1, 0, 0⟩ ⟨0, 1, 0⟩ 1 0
      = ⟨none, none, none, 1⟩ :=
  ⟨⟨by decide, by decide⟩,
   draw_gradient_height1_nan zeroImage ⟨0, 2, 0, 1⟩ ⟨1, 0, 0⟩ ⟨0, 1, 0⟩ 1 0
     (by decide) (by decide)⟩

/-- Claim C6: for a region of height at least 2, the top row receives
exactly the start color and the bottom row exactly the end color, the
blend factor is strictly increasing in `y`, pixels within one row are
identical, and every written pixel's alpha is 1. -/
theorem draw_gradient_rows (img : Image) (roi : ROI) (sc ec : Color3)
    (x x2 y y1 y2 : ℤ)
    (hh : 2 ≤ roi.height)
    (hx : roi.xbegin ≤ x ∧ x < roi.xend)
    (hx2 : roi.xbegin ≤ x2 ∧ x2 < roi.xend)
    (hy : roi.ybegin ≤ y ∧ y < roi.yend)
    (hy1 : roi.ybegin ≤ y1) (h12 : y1 < y2) (hy2 : y2 < roi.yend) :
    draw_gradient img roi sc ec x roi.ybegin
      = ⟨some sc.r, some sc.g, some sc.b, 1⟩ ∧
    draw_gradient img roi sc ec x (roi.yend - 1)
      = ⟨some ec.r, some ec.g, some ec.b, 1⟩ ∧
    blendOf roi y1
      = some (((y1 : ℚ) - (roi.ybegin : ℚ)) / (((roi.height : ℤ) : ℚ) - 1)) ∧
    blendOf roi y2
      = some (((y2 : ℚ) - (roi.ybegin : ℚ)) / (((roi.height : ℤ) : ℚ) - 1)) ∧
    ((y1 : ℚ) - (roi.ybegin : ℚ)) / (((roi.height : ℤ) : ℚ) - 1)
      < ((y2 : ℚ) - (roi.ybegin : ℚ)) / (((roi.height : ℤ) : ℚ) - 1) ∧
    draw_gradient img roi sc ec x y = draw_gradient img roi sc ec x2 y ∧
    (draw_gradient img roi sc ec x y).a = 1 := by
  have hhq : (2 : ℚ) ≤ ((roi.height : ℤ) : ℚ) := by exact_mod_cast hh
  have hdenpos : (0 : ℚ) < ((roi.height : ℤ) : ℚ) - 1 := by linarith
  have hden : ((roi.height : ℤ) : ℚ) - 1 ≠ 0 := ne_of_gt hdenpos
  have hyy : roi.ybegin < roi.yend := by
    unfold ROI.height at hh; omega
  have hmemtop : roi.mem x roi.ybegin := ⟨hx.1, hx.2, le_refl _, hyy⟩
  have hmembot : roi.mem x (roi.yend - 1) := ⟨hx.1, hx.2, by omega, by omega⟩
  have hmemy : roi.mem x y := ⟨hx.1, hx.2, hy.1, hy.2⟩
  have hmemy2 : roi.mem x2 y := ⟨hx2.1, hx2.2, hy.1, hy.2⟩
  have hblend : ∀ z : ℤ, blendOf roi z
      = some (((z : ℚ) - (roi.ybegin : ℚ)) / (((roi.height : ℤ) : ℚ) - 1)) := by
    intro z
    unfold blendOf fdiv
    rw [if_neg hden]
  refine ⟨?_, ?_, hblend y1, hblend y2, ?_, ?_, ?_⟩
  · rw [draw_gradient_apply, if_pos hmemtop, gradPixel_eval _ _ _ _ hden]
    rw [sub_self, zero_div]
    norm_num
  · rw [draw_gradient_apply, if_pos hmembot, gradPixel_eval _ _ _ _ hden]
    have hbl : ((roi.yend - 1 : ℤ) : ℚ) - (roi.ybegin : ℚ)
        = ((roi.height : ℤ) : ℚ) - 1 := by
      unfold ROI.height
      push_cast
      ring
    rw [hbl, div_self hden]
    norm_num
  · apply (div_lt_div_iff_of_pos_right hdenpos).mpr
    have : (y1 : ℚ) < (y2 : ℚ) := by exact_mod_cast h12
    linarith
  · rw [draw_gradient_apply, if_pos hmemy, draw_gradient_apply, if_pos hmemy2]
  · rw [draw_gradient_apply, if_pos hmemy]
    rfl

/-- Witness for C6 on a 2×3 region. -/
theorem draw_gradient_rows_witness :
    (2 ≤ (ROI.mk 0 2 0 3).height ∧
     ((0:ℤ) ≤ 0 ∧ (0:ℤ) < 2) ∧ ((0:ℤ) ≤ 1 ∧ (1:ℤ) < 2) ∧
     ((0:ℤ) ≤ 1 ∧ (1:ℤ) < 3) ∧ (0:ℤ) ≤ 0 ∧ (0:ℤ) < 2 ∧ (2:ℤ) < 3) ∧
    (draw_gradient zeroImage ⟨0, 2, 0, 3⟩ ⟨1, 0, 0⟩ ⟨0, 1, 0⟩ 0 (ROI.mk 0 2 0 3).ybegin
      = ⟨some 1, some 0, some 0, 1⟩ ∧
     draw_gradient zeroImage ⟨0, 2, 0, 3⟩ ⟨1, 0, 0⟩ ⟨0, 1, 0⟩ 0 ((ROI.mk 0 2 0 3).yend - 1)
      = ⟨some 0, some 1, some 0, 1⟩ ∧
     blendOf ⟨0, 2, 0, 3⟩ 0
      = some ((((0 : ℤ) : ℚ) - ((ROI.mk 0 2 0 3).ybegin : ℚ)) /
          ((((ROI.mk 0 2 0 3).height : ℤ) : ℚ) - 1)) ∧
     blendOf ⟨0, 2, 0, 3⟩ 2
      = some ((((2 : ℤ) : ℚ) - ((ROI.mk 0 2 0 3).ybegin : ℚ)) /
          ((((ROI.mk 0 2 0 3).height : ℤ) : ℚ) - 1)) ∧
     (((0 : ℤ) : ℚ) - ((ROI.mk 0 2 0 3).ybegin : ℚ)) /
          ((((ROI.mk 0 2 0 3).height : ℤ) : ℚ) - 1)
       < (((2 : ℤ) : ℚ) - ((ROI.mk 0 2 0 3).ybegin : ℚ)) /
          ((((ROI.mk 0 2 0 3).height : ℤ) : ℚ) - 1) ∧
     draw_gradient zeroImage ⟨0, 2, 0, 3⟩ ⟨1, 0, 0⟩ ⟨0, 1, 0⟩ 0 1
       = draw_gradient zeroImage ⟨0, 2, 0, 3⟩ ⟨1, 0, 0⟩ ⟨0, 1, 0⟩ 1 1 ∧
     (draw_gradient zeroImage ⟨0, 2, 0, 3⟩ ⟨1, 0, 0⟩ ⟨0, 1, 0⟩ 0 1).a = 1) :=
  ⟨⟨by decide, ⟨by decide, by decide⟩, ⟨by decide, by decide⟩,
    ⟨by decide, by decide⟩, by decide, by decide, by decide⟩,
   draw_gradient_rows zeroImage ⟨0, 2, 0, 3⟩ ⟨1, 0, 0⟩ ⟨0, 1, 0⟩ 0 1 1 0 2
     (by decide) ⟨by decide, by decide⟩ ⟨by decide, by decide⟩
     ⟨by decide, by decide⟩ (by decide) (by decide) (by decide)⟩

/-- Claim C7: when the gradient name is found in the hue table, the
canvas is filled with the vertical gradient from
`rgb_from_hsv(hue, 1.0, 0.5)` to `rgb_from_hsv(hue, 0.5, 0.8)`; when no
gradient name was supplied or the lookup failed, every canvas pixel is
instead the configured flat background color at full opacity. -/
theorem renderBackground_policy (name : String) (hue : ℚ) (bg : Color3)
    (roi : ROI) (img : Image) (x y : ℤ) (hmem : roi.mem x y) :
    (huesFind name = some hue →
      renderBackground name bg roi img
        = draw_gradient img roi (rgb_from_hsv ⟨hue, 1, 1/2⟩)
            (rgb_from_hsv ⟨hue, 1/2, 4/5⟩)) ∧
    ((name = "" ∨ huesFind name = none) →
      renderBackground name bg roi img x y
        = ⟨some bg.r, some bg.g, some bg.b, 1⟩) := by
  constructor
  · intro hfound
    have hlen := table_key_length_pos name (huesFind_mem_keys name hue hfound)
    unfold renderBackground
    rw [if_pos hlen, hfound]
  · intro hmiss
    unfold renderBackground
    rcases hmiss with rfl | hnone
    · rw [if_neg (by decide)]
      show fill img bg 1 roi x y = _
      unfold fill
      rw [if_pos hmem]
    · by_cases hlen : 0 < name.length
      · rw [if_pos hlen, hnone]
        show fill img bg 1 roi x y = _
        unfold fill
        rw [if_pos hmem]
      · rw [if_neg hlen]
        show fill img bg 1 roi x y = _
        unfold fill
        rw [if_pos hmem]

/-- Witness for C7: gradient name "blue" (found, hue 240) and "teal"
(missing, flat fill) on a 4×4 canvas. -/
theorem renderBackground_policy_witness :
    ROI.mem ⟨0, 4, 0, 4⟩ 1 2 ∧
    huesFind "blue" = some 240 ∧
    renderBackground "blue" ⟨0, 0, 0⟩ ⟨0, 4, 0, 4⟩ zeroImage
      = draw_gradient zeroImage ⟨0, 4, 0, 4⟩ (rgb_from_hsv ⟨240, 1, 1/2⟩)
          (rgb_from_hsv ⟨240, 1/2, 4/5⟩) ∧
    huesFind "teal" = none ∧
    renderBackground "teal" ⟨0, 0, 0⟩ ⟨0, 4, 0, 4⟩ zeroImage 1 2
      = ⟨some 0, some 0, some 0, 1⟩ :=
  ⟨by decide, by decide,
   (renderBackground_policy "blue" 240 ⟨0, 0, 0⟩ ⟨0, 4, 0, 4⟩ zeroImage 1 2
      (by decide)).1 (by decide),
   by decide,
   (renderBackground_policy "teal" 240 ⟨0, 0, 0⟩ ⟨0, 4, 0, 4⟩ zeroImage 1 2
      (by decide)).2 (Or.inr (by decide))⟩

/-- Claim C8: the hue table holds exactly the ten documented entries
under case-sensitive exact match; any other non-empty name misses
without crashing, the warnings name the invalid value and list every
valid name, the run continues with the flat background fill, and the
empty name is never looked up. -/
theorem hue_table_lookup (name : String) (bg : Color3) (roi : ROI)
    (img : Image) (x y : ℤ)
    (hnotin : ¬ name ∈ ["azure", "blue", "cyan", "green", "magenta",
        "orange", "red", "rose", "violet", "yellow"])
    (hlen : 0 < name.length) (hmem : roi.mem x y) :
    (huesFind "red" = some 360 ∧ huesFind "orange" = some 30 ∧
     huesFind "yellow" = some 60 ∧ huesFind "green" = some 120 ∧
     huesFind "cyan" = some 180 ∧ huesFind "azure" = some 210 ∧
     huesFind "blue" = some 240 ∧ huesFind "violet" = some 270 ∧
     huesFind "magenta" = some 300 ∧ huesFind "rose" = some 330) ∧
    hues.length = 10 ∧
    huesFind "Red" = none ∧
    huesFind name = none ∧
    gradientWarnings name
      = ["warning: could not find hue for gradient: " ++ name,
         "warning: available options are: azure, blue, cyan, green, magenta, orange, red, rose, violet, yellow"] ∧
    renderBackground name bg roi img x y
      = ⟨some bg.r, some bg.g, some bg.b, 1⟩ ∧
    gradientLookups name = [name] ∧
    gradientLookups "" = [] := by
  have hnone : huesFind name = none := by
    cases hfind : huesFind name with
    | none => rfl
    | some v => exact absurd (huesFind_mem_keys name v hfind) hnotin
  have h2 : "warning: available options are: " ++ hueOptions
      = "warning: available options are: azure, blue, cyan, green, magenta, orange, red, rose, violet, yellow" := by
    decide
  refine ⟨⟨by decide, by decide, by decide, by decide, by decide, by decide,
      by decide, by decide, by decide, by decide⟩, by decide, by decide,
    hnone, ?_, ?_, ?_, by decide⟩
  · unfold gradientWarnings
    rw [if_pos hlen, hnone, h2]
  · unfold renderBackground
    rw [if_pos hlen, hnone]
    show fill img bg 1 roi x y = _
    unfold fill
    rw [if_pos hmem]
  · unfold gradientLookups
    rw [if_pos hlen]

/-- Witness for C8 at the unknown name "teal". -/
theorem hue_table_lookup_witness :
    (¬ "teal" ∈ ["azure", "blue", "cyan", "green", "magenta",
        "orange", "red", "rose", "violet", "yellow"] ∧
     0 < ("teal" : String).length ∧ ROI.mem ⟨0, 4, 0, 4⟩ 1 2) ∧
    ((huesFind "red" = some 360 ∧ huesFind "orange" = some 30 ∧
      huesFind "yellow" = some 60 ∧ huesFind "green" = some 120 ∧
      huesFind "cyan" = some 180 ∧ huesFind "azure" = some 210 ∧
      huesFind "blue" = some 240 ∧ huesFind "violet" = some 270 ∧
      huesFind "magenta" = some 300 ∧ huesFind "rose" = some 330) ∧
     hues.length = 10 ∧
     huesFind "Red" = none ∧
     huesFind "teal" = none ∧
     gradientWarnings "teal"
       = ["warning: could not find hue for gradient: " ++ "teal",
          "warning: available options are: azure, blue, cyan, green, magenta, orange, red, rose, violet, yellow"] ∧
     renderBackground "teal" ⟨0, 0, 0⟩ ⟨0, 4, 0, 4⟩ zeroImage 1 2
       = ⟨some 0, some 0, some 0, 1⟩ ∧
     gradientLookups "teal" = ["teal"] ∧
     gradientLookups "" = []) :=
  ⟨⟨by decide, by decide, by decide⟩,
   hue_table_lookup "teal" ⟨0, 0, 0⟩ ⟨0, 4, 0, 4⟩ zeroImage 1 2
     (by decide) (by decide) (by decide)⟩

/-- For a nonnegative sector floor, the C++ truncating `%` agrees with
the mathematical modulus. -/
theorem tmod_floor_eq_emod (u : ℚ) (h0 : 0 ≤ u) :
    Int.tmod ⌊u / 60⌋ 6 = ⌊u / 60⌋ % 6 := by
  have hfl0 : 0 ≤ ⌊u / 60⌋ := Int.floor_nonneg.mpr (div_nonneg h0 (by norm_num))
  exact Int.tmod_eq_emod hfl0 (by norm_num)

/-- For hue in `[0, 360)` the sector index is the plain floor, and the
fractional offset `f` lies in `[0, 1)`. -/
theorem hsvF_bounds (u : ℚ) (h0 : 0 ≤ u) (h360 : u < 360) :
    0 ≤ hsvF u ∧ hsvF u < 1 := by
  have hfl0 : 0 ≤ ⌊u / 60⌋ := Int.floor_nonneg.mpr (div_nonneg h0 (by norm_num))
  have hfl6 : ⌊u / 60⌋ < 6 := by
    apply Int.floor_lt.mpr
    push_cast
    rw [div_lt_iff (by norm_num : (0:ℚ) < 60)]
    linarith
  have hhi : hsvHi u = ⌊u / 60⌋ := by
    unfold hsvHi
    rw [Int.tmod_eq_emod hfl0 (by norm_num), Int.emod_eq_of_lt hfl0 hfl6]
  unfold hsvF
  rw [hhi]
  constructor
  · have hle := Int.floor_le (u / 60)
    linarith
  · have hlt := Int.lt_floor_add_one (u / 60)
    linarith

/-- The intermediates `p`, `q`, `t` stay inside `[0, value]`. -/
theorem pqt_bounds (u s v : ℚ) (h0 : 0 ≤ u) (h360 : u < 360)
    (hs0 : 0 ≤ s) (hs1 : s ≤ 1) (hv0 : 0 ≤ v) :
    (0 ≤ hsvP s v ∧ hsvP s v ≤ v) ∧
    (0 ≤ hsvQ u s v ∧ hsvQ u s v ≤ v) ∧
    (0 ≤ hsvT u s v ∧ hsvT u s v ≤ v) := by
  obtain ⟨hf0, hf1⟩ := hsvF_bounds u h0 h360
  have h1f0 : (0:ℚ) ≤ 1 - hsvF u := by linarith
  unfold hsvP hsvQ hsvT
  refine ⟨⟨?_, ?_⟩, ⟨?_, ?_⟩, ⟨?_, ?_⟩⟩
  · exact mul_nonneg hv0 (by linarith)
  · nlinarith [mul_nonneg hv0 hs0]
  · have hfs : hsvF u * s ≤ 1 := by
      nlinarith [mul_nonneg hf0 (sub_nonneg.mpr hs1)]
    exact mul_nonneg hv0 (by linarith)
  · nlinarith [mul_nonneg hv0 (mul_nonneg hf0 hs0)]
  · have hfs : (1 - hsvF u) * s ≤ 1 := by
      nlinarith [mul_nonneg h1f0 (sub_nonneg.mpr hs1)]
    exact mul_nonneg hv0 (by linarith)
  · nlinarith [mul_nonneg hv0 (mul_nonneg h1f0 hs0)]

/-- Every sector of the switch yields channels drawn from
`{v, p, q, t}` (or the zero initializers), hence inside `[0, 1]`. -/
theorem hsvSector_channel_bounds (hi : ℤ) (v p q t : ℚ)
    (hv0 : 0 ≤ v) (hv1 : v ≤ 1) (hp : 0 ≤ p ∧ p ≤ v)
    (hq : 0 ≤ q ∧ q ≤ v) (ht : 0 ≤ t ∧ t ≤ v) :
    (0 ≤ (hsvSector hi v p q t).r ∧ (hsvSector hi v p q t).r ≤ 1) ∧
    (0 ≤ (hsvSector hi v p q t).g ∧ (hsvSector hi v p q t).g ≤ 1) ∧
    (0 ≤ (hsvSector hi v p q t).b ∧ (hsvSector hi v p q t).b ≤ 1) := by
  unfold hsvSector
  split <;>
    (refine ⟨⟨?_, ?_⟩, ⟨?_, ?_⟩, ⟨?_, ?_⟩⟩ <;> dsimp only <;>
      linarith [hp.1, hp.2, hq.1, hq.2, ht.1, ht.2])

/-- Claim C2: the conversion equals the spec's reference definition for
every nonnegative hue (hue ≥ 360 normalized to 0, epsilon branches,
six-sector table), and satisfies the anchor identities
`hsv(0,1,1) = red`, `hsv(120,1,1) = green`, `hsv(240,1,1) = blue`,
and hue 360 ≡ hue 0. -/
theorem rgb_from_hsv_matches_reference (h h2 s v s2 v2 : ℚ) (hh : 0 ≤ h) :
    rgb_from_hsv ⟨h, s, v⟩ = hsv_reference ⟨h, s, v⟩ ∧
    (v2 < feps → rgb_from_hsv ⟨h2, s2, v2⟩ = ⟨0, 0, 0⟩) ∧
    (feps ≤ v2 → s2 < feps → rgb_from_hsv ⟨h2, s2, v2⟩ = ⟨v2, v2, v2⟩) ∧
    rgb_from_hsv ⟨360, s, v⟩ = rgb_from_hsv ⟨0, s, v⟩ ∧
    rgb_from_hsv ⟨0, 1, 1⟩ = ⟨1, 0, 0⟩ ∧
    rgb_from_hsv ⟨120, 1, 1⟩ = ⟨0, 1, 0⟩ ∧
    rgb_from_hsv ⟨240, 1, 1⟩ = ⟨0, 0, 1⟩ := by
  refine ⟨?_, ?_, ?_, ?_, ?_, ?_, ?_⟩
  · by_cases h360 : h ≥ 360
    · simp only [rgb_from_hsv, hsv_reference, hsvHi, hsvF, hsvP, hsvQ, hsvT,
        if_pos h360]
      rw [tmod_floor_eq_emod 0 (le_refl 0)]
    · simp only [rgb_from_hsv, hsv_reference, hsvHi, hsvF, hsvP, hsvQ, hsvT,
        if_neg h360]
      rw [tmod_floor_eq_emod h hh]
  · intro hv
    simp only [rgb_from_hsv]
    rw [if_pos hv]
  · intro hv hs
    simp only [rgb_from_hsv]
    rw [if_neg (not_lt.mpr hv), if_pos hs]
  · simp only [rgb_from_hsv]
    norm_num
  · norm_num [rgb_from_hsv, feps, hsvSector, hsvHi, hsvF, hsvP, hsvQ, hsvT]
  · norm_num [rgb_from_hsv, feps, hsvSector, hsvHi, hsvF, hsvP, hsvQ, hsvT,
      show Int.tmod 2 6 = 2 by decide]
  · norm_num [rgb_from_hsv, feps, hsvSector, hsvHi, hsvF, hsvP, hsvQ, hsvT,
      show Int.tmod 4 6 = 4 by decide]

/-- Witness for C2 at hue 49 (refinement), a negative hue with zero
value (black branch), zero saturation (gray branch), and the anchors. -/
theorem rgb_from_hsv_matches_reference_witness :
    (0:ℚ) ≤ 49 ∧
    rgb_from_hsv ⟨49, 1, 1⟩ = hsv_reference ⟨49, 1, 1⟩ ∧
    ((0:ℚ) < feps ∧ rgb_from_hsv ⟨-10, 1, 0⟩ = ⟨0, 0, 0⟩) ∧
    (feps ≤ (1/2 : ℚ) ∧ (0:ℚ) < feps ∧
      rgb_from_hsv ⟨-10, 0, 1/2⟩ = ⟨1/2, 1/2, 1/2⟩) ∧
    rgb_from_hsv ⟨360, 1, 1⟩ = rgb_from_hsv ⟨0, 1, 1⟩ ∧
    rgb_from_hsv ⟨0, 1, 1⟩ = ⟨1, 0, 0⟩ ∧
    rgb_from_hsv ⟨120, 1, 1⟩ = ⟨0, 1, 0⟩ ∧
    rgb_from_hsv ⟨240, 1, 1⟩ = ⟨0, 0, 1⟩ := by
  have A := rgb_from_hsv_matches_reference 49 (-10) 1 1 1 0 (by norm_num)
  have B := rgb_from_hsv_matches_reference 49 (-10) 1 1 0 (1/2) (by norm_num)
  exact ⟨by norm_num, A.1,
    ⟨by norm_num [feps], A.2.1 (by norm_num [feps])⟩,
    ⟨by norm_num [feps], by norm_num [feps],
      B.2.2.1 (by norm_num [feps]) (by norm_num [feps])⟩,
    A.2.2.2.1, A.2.2.2.2.1, A.2.2.2.2.2.1, A.2.2.2.2.2.2⟩

/-- Claim C10: for hue in [0,360] and saturation, value in [0,1], all
three output channels lie in [0,1] with no clamping (the definition of
`rgb_from_hsv` applies none), and the intermediates `p`, `q`, `t` stay
inside `[0, value]`. -/
theorem rgb_from_hsv_channels_unit (h s v : ℚ)
    (hh0 : 0 ≤ h) (hh1 : h ≤ 360) (hs0 : 0 ≤ s) (hs1 : s ≤ 1)
    (hv0 : 0 ≤ v) (hv1 : v ≤ 1) :
    (0 ≤ (rgb_from_hsv ⟨h, s, v⟩).r ∧ (rgb_from_hsv ⟨h, s, v⟩).r ≤ 1) ∧
    (0 ≤ (rgb_from_hsv ⟨h, s, v⟩).g ∧ (rgb_from_hsv ⟨h, s, v⟩).g ≤ 1) ∧
    (0 ≤ (rgb_from_hsv ⟨h, s, v⟩).b ∧ (rgb_from_hsv ⟨h, s, v⟩).b ≤ 1) ∧
    (0 ≤ hsvP s v ∧ hsvP s v ≤ v) ∧
    (0 ≤ hsvQ (if h ≥ 360 then 0 else h) s v ∧
      hsvQ (if h ≥ 360 then 0 else h) s v ≤ v) ∧
    (0 ≤ hsvT (if h ≥ 360 then 0 else h) s v ∧
      hsvT (if h ≥ 360 then 0 else h) s v ≤ v) := by
  by_cases h360 : h ≥ 360
  · simp only [if_pos h360]
    obtain ⟨hpb, hqb, htb⟩ :=
      pqt_bounds 0 s v (le_refl 0) (by norm_num) hs0 hs1 hv0
    have hmain := hsvSector_channel_bounds (hsvHi 0)
      v (hsvP s v) (hsvQ 0 s v) (hsvT 0 s v) hv0 hv1 hpb hqb htb
    refine ⟨?_, ?_, ?_, hpb, hqb, htb⟩ <;>
      simp only [rgb_from_hsv, if_pos h360] <;> split_ifs with hb1 hb2
    · exact ⟨le_refl 0, by norm_num⟩
    · exact ⟨hv0, hv1⟩
    · exact hmain.1
    · exact ⟨le_refl 0, by norm_num⟩
    · exact ⟨hv0, hv1⟩
    · exact hmain.2.1
    · exact ⟨le_refl 0, by norm_num⟩
    · exact ⟨hv0, hv1⟩
    · exact hmain.2.2
  · simp only [if_neg h360]
    obtain ⟨hpb, hqb, htb⟩ :=
      pqt_bounds h s v hh0 (lt_of_not_ge h360) hs0 hs1 hv0
    have hmain := hsvSector_channel_bounds (hsvHi h)
      v (hsvP s v) (hsvQ h s v) (hsvT h s v) hv0 hv1 hpb hqb htb
    refine ⟨?_, ?_, ?_, hpb, hqb, htb⟩ <;>
      simp only [rgb_from_hsv, if_neg h360] <;> split_ifs with hb1 hb2
    · exact ⟨le_refl 0, by norm_num⟩
    · exact ⟨hv0, hv1⟩
    · exact hmain.1
    · exact ⟨le_refl 0, by norm_num⟩
    · exact ⟨hv0, hv1⟩
    · exact hmain.2.1
    · exact ⟨le_refl 0, by norm_num⟩
    · exact ⟨hv0, hv1⟩
    · exact hmain.2.2

/-- Witness for C10 at hue 49, saturation 1, value 1. -/
theorem rgb_from_hsv_channels_unit_witness :
    ((0:ℚ) ≤ 49 ∧ (49:ℚ) ≤ 360 ∧ (0:ℚ) ≤ 1 ∧ (1:ℚ) ≤ 1) ∧
    ((0 ≤ (rgb_from_hsv ⟨49, 1, 1⟩).r ∧ (rgb_from_hsv ⟨49, 1, 1⟩).r ≤ 1) ∧
     (0 ≤ (rgb_from_hsv ⟨49, 1, 1⟩).g ∧ (rgb_from_hsv ⟨49, 1, 1⟩).g ≤ 1) ∧
     (0 ≤ (rgb_from_hsv ⟨49, 1, 1⟩).b ∧ (rgb_from_hsv ⟨49, 1, 1⟩).b ≤ 1) ∧
     (0 ≤ hsvP 1 1 ∧ hsvP 1 1 ≤ 1) ∧
     (0 ≤ hsvQ (if (49:ℚ) ≥ 360 then 0 else 49) 1 1 ∧
       hsvQ (if (49:ℚ) ≥ 360 then 0 else 49) 1 1 ≤ 1) ∧
     (0 ≤ hsvT (if (49:ℚ) ≥ 360 then 0 else 49) 1 1 ∧
       hsvT (if (49:ℚ) ≥ 360 then 0 else 49) 1 1 ≤ 1)) :=
  ⟨⟨by norm_num, by norm_num, by norm_num, by norm_num⟩,
   rgb_from_hsv_channels_unit 49 1 1 (by norm_num) (by norm_num)
     (by norm_num) (by norm_num) (by norm_num) (by norm_num)⟩
